import Mathlib

/-!
Verification of the Clinical Intelligence / Session Analytics core
(`core/clinical_intelligence.py`) of the AGI-119 repository.

The Python floats are modelled as exact rationals (`ℚ`); `round(x, d)` and
`numpy.round(x, d)` both round half to even, modelled by `rheInt`/`roundTo`.
Text is modelled as `String` / `List Char`; `str.lower()` as a character-wise
`Char.toLower` (the texts and keyword tables involved are ASCII).
-/

/-! ### Numeric helpers -/

/-- Round-half-to-even to the nearest integer, as Python's `round` and
`numpy.round` do for the digit dropped exactly at a tie. -/
def rheInt (x : ℚ) : ℤ :=
  if x - ⌊x⌋ < 1/2 then ⌊x⌋
  else if 1/2 < x - ⌊x⌋ then ⌊x⌋ + 1
  else if ⌊x⌋ % 2 = 0 then ⌊x⌋ else ⌊x⌋ + 1

/-- `round(x, d)` in Python: round half to even at `d` decimal places. -/
def roundTo (d : ℕ) (x : ℚ) : ℚ := (rheInt (x * 10 ^ d) : ℚ) / 10 ^ d

def round4 (x : ℚ) : ℚ := roundTo 4 x

def round3 (x : ℚ) : ℚ := roundTo 3 x

/-- The exact `d`-decimal rationals. -/
def isDp (d : ℕ) (x : ℚ) : Prop := ∃ k : ℤ, x = (k : ℚ) / 10 ^ d

/-- The exact `d`-decimal reals. -/
def isDpR (d : ℕ) (x : ℝ) : Prop := ∃ k : ℤ, x = (k : ℝ) / 10 ^ d

/-- Round-half-to-even on the reals (for the one irrational quantity the code
produces: `np.std`, a square root). -/
noncomputable def rheIntR (x : ℝ) : ℤ :=
  if x - ⌊x⌋ < 1/2 then ⌊x⌋
  else if 1/2 < x - ⌊x⌋ then ⌊x⌋ + 1
  else if ⌊x⌋ % 2 = 0 then ⌊x⌋ else ⌊x⌋ + 1

noncomputable def roundTo4R (x : ℝ) : ℝ := (rheIntR (x * 10 ^ 4) : ℝ) / 10 ^ 4

/-- `np.clip(x, lo, hi)`. -/
def clipQ (lo hi x : ℚ) : ℚ := min hi (max lo x)

def meanQ (l : List ℚ) : ℚ := l.sum / l.length

/-- `np.var`: population variance (mean of squared deviations). -/
def popVar (l : List ℚ) : ℚ := (l.map (fun x => (x - meanQ l) ^ 2)).sum / l.length

/-- `np.min` over a non-empty array (0 is never used: callers guard emptiness). -/
def listMinQ : List ℚ → ℚ
  | [] => 0
  | x :: xs => xs.foldl min x

/-- `np.max` over a non-empty array. -/
def listMaxQ : List ℚ → ℚ
  | [] => 0
  | x :: xs => xs.foldl max x

def sortQ (l : List ℚ) : List ℚ := l.insertionSort (· ≤ ·)

/-- `np.median`: middle element of the sorted data, or the mean of the two
middle elements when the length is even. -/
def medianQ (l : List ℚ) : ℚ :=
  let s := sortQ l
  if s.length % 2 = 1 then s.getD (s.length / 2) 0
  else (s.getD (s.length / 2 - 1) 0 + s.getD (s.length / 2) 0) / 2

/-! ### Text helpers -/

/-- `text.lower()` (character-wise; ASCII-faithful). -/
def pyLower (s : String) : List Char := s.toList.map Char.toLower

/-- Does `needle` occur at the very start of `hay`? -/
def subAt : List Char → List Char → Bool
  | [], _ => true
  | _ :: _, [] => false
  | a :: as, b :: bs => a == b && subAt as bs

/-- Python's `needle in hay` substring test. -/
def isSubstr (needle : List Char) : List Char → Bool
  | [] => subAt needle []
  | c :: rest => subAt needle (c :: rest) || isSubstr needle rest

/-- A regex word character (`\w` over the ASCII texts involved). -/
def isWordChar (c : Char) : Bool := c.isAlpha || c.isDigit || c == '_'

/-- Is the position after `prev` a valid `\b` boundary, given that the
pattern begins with a word character? -/
def boundaryB : Option Char → Bool
  | none => true
  | some c => !isWordChar c

/-- Does `pat` occur at the start of `hay`, with a `\b` boundary right after
it (end of string, or a non-word character)? All pattern alternatives in the
risk tables end with a word character. -/
def litHereB : List Char → List Char → Bool
  | [], [] => true
  | [], c :: _ => !isWordChar c
  | _ :: _, [] => false
  | p :: ps, c :: cs => p == c && litHereB ps cs

/-- Scan `hay` for an occurrence of `pat` enclosed in `\b` boundaries;
`prev` is the character just before the current position. -/
def wbAux (pat : List Char) : Option Char → List Char → Bool
  | prev, [] => boundaryB prev && litHereB pat []
  | prev, c :: cs => (boundaryB prev && litHereB pat (c :: cs)) || wbAux pat (some c) cs

/-- `re.search(r"\b(pat)\b", hay)` for one literal alternative `pat`. -/
def wbMatch (pat : String) (hay : List Char) : Bool := wbAux pat.toList none hay

/-! ### 1. Emotion classifier (`EMOTION_PATTERNS`, `EmotionClassifier.classify`) -/

def anxietyKws : List String :=
  ["anxious", "anxiety", "worried", "worry", "nervous", "panic", "fear",
   "scared", "dread", "apprehensive", "restless", "tense", "overwhelmed",
   "phobia", "uneasy", "on edge", "heart racing", "can't breathe", "hyperventilate"]

def depressionKws : List String :=
  ["depressed", "depression", "hopeless", "worthless", "empty", "sad", "sadness",
   "numb", "low", "grief", "melancholy", "crying", "tears", "dark thoughts",
   "no point", "meaningless", "can't feel", "feel nothing", "no energy",
   "lost interest", "don't enjoy anything", "no motivation"]

def stressKws : List String :=
  ["stressed", "stress", "pressure", "burden", "loaded", "exhausted", "drained",
   "too much", "can't cope", "burned out", "burnout", "deadline", "workload",
   "no time", "falling behind", "overwhelmed", "responsibilities"]

def lonelinessKws : List String :=
  ["lonely", "alone", "isolated", "no one", "disconnected", "left out",
   "invisible", "nobody cares", "no friends", "abandoned", "rejected",
   "socially isolated", "don't belong", "excluded"]

def angerKws : List String :=
  ["angry", "anger", "furious", "rage", "irritated", "frustrated", "annoyed",
   "mad", "resentment", "bitter", "hatred", "hostile", "aggressive", "outraged",
   "livid", "can't stand"]

def traumaKws : List String :=
  ["trauma", "traumatic", "flashback", "nightmare", "ptsd", "abuse", "violated",
   "assault", "attacked", "harassed", "victim", "can't forget", "triggers",
   "haunted", "intrusive thoughts", "reliving"]

def neutralKws : List String :=
  ["okay", "fine", "alright", "normal", "average", "so-so", "not bad",
   "managing", "getting by", "okay I guess", "just existing"]

def positiveKws : List String :=
  ["happy", "joy", "excited", "grateful", "hopeful", "better", "improving",
   "good", "great", "wonderful", "positive", "motivated", "content", "peaceful",
   "calm", "relieved", "proud", "accomplished", "energized", "thriving"]

/-- `EMOTION_PATTERNS`: category name, keyword list, weight (in source order). -/
def EMOTION_PATTERNS : List (String × List String × ℚ) :=
  [("anxiety", anxietyKws, 1),
   ("depression", depressionKws, 1),
   ("stress", stressKws, 9/10),
   ("loneliness", lonelinessKws, 9/10),
   ("anger", angerKws, 8/10),
   ("trauma", traumaKws, 1),
   ("neutral", neutralKws, 4/10),
   ("positive", positiveKws, 7/10)]

def NEGATIVE_EMOTIONS : List String :=
  ["anxiety", "depression", "stress", "loneliness", "anger", "trauma"]

def POSITIVE_EMOTIONS : List String := ["positive", "neutral"]

/-- `hits = sum(1 for kw in keywords if kw in text_lower)`. -/
def kwHits (kws : List String) (textLower : List Char) : ℕ :=
  (kws.filter (fun kw => isSubstr kw.toList textLower)).length

/-- The `scores` dict of `EmotionClassifier.classify`, in insertion order:
`scores[emotion] = round(min(hits,6)/6 * weight, 4)` for categories with hits. -/
def classifyScores (text : String) : List (String × ℚ) :=
  EMOTION_PATTERNS.filterMap (fun e =>
    let hits := kwHits e.2.1 (pyLower text)
    if hits = 0 then none
    else some (e.1, round4 ((min hits 6 : ℕ) / 6 * e.2.2)))

structure EmotionResult where
  emotion_label : String
  confidence_score : ℚ
  all_scores : List (String × ℚ)
deriving DecidableEq

/-- Python's `max(iterable, key=...)`: the first element attaining the
maximum (later elements replace the accumulator only when strictly greater). -/
def pyMaxFold (d : String × ℚ) (l : List (String × ℚ)) : String × ℚ :=
  l.foldl (fun acc x => if acc.2 < x.2 then x else acc) d

/-- `EmotionClassifier.classify`. -/
def classify (text : String) : EmotionResult :=
  match classifyScores text with
  | [] => ⟨"neutral", 3/10, [("neutral", 3/10)]⟩
  | s :: rest =>
    let dom := pyMaxFold s rest
    ⟨dom.1, round4 (min (dom.2 + 28/100) 1), s :: rest⟩

/-- `EmotionClassifier.is_negative`. -/
def is_negative (label : String) : Bool := NEGATIVE_EMOTIONS.contains label

def is_positive (label : String) : Bool := POSITIVE_EMOTIONS.contains label

/-! ### 4. Safety module (`_RISK_PATTERNS`, `SafetyModule.analyze`)

Each regex in `_RISK_PATTERNS` is `\b(alt|alt|...)\b` over literal
alternatives; the only non-literal constructs, `'?` and `[- ]?`, are expanded
into the corresponding finite sets of literals below. -/

def suicidalAlts : List String :=
  ["suicide", "suicidal", "kill myself", "end my life", "take my life",
   "want to die", "dont want to live", "don't want to live", "life is not worth",
   "rather be dead", "end it all", "no reason to live", "die by suicide"]

def selfHarmAlts : List String :=
  ["selfharm", "self-harm", "self harm", "cut myself", "hurt myself",
   "harm myself", "selfinjur", "self-injur", "self injur", "scratch",
   "burn myself", "hit myself", "blade", "razor", "cut my arm"]

def intentAlts : List String :=
  ["hurt someone", "kill someone", "harm others", "threaten", "murder",
   "attack", "plan to hurt", "violence against"]

def substanceAlts : List String :=
  ["overdose", "opioid crisis", "drug overdose", "alcohol poisoning",
   "took too many pills", "swallowed pills"]

def RISK_PATTERNS : List (String × List String) :=
  [("suicidal_ideation", suicidalAlts),
   ("self_harm", selfHarmAlts),
   ("intent_to_harm_others", intentAlts),
   ("substance_crisis", substanceAlts)]

/-- Does any alternative of one risk category match (with word boundaries)? -/
def riskMatches (alts : List String) (t : List Char) : Bool :=
  alts.any (fun a => wbMatch a t)

def EMERGENCY_RESOURCES : List (String × String) :=
  [("🆘 Suicide & Crisis Lifeline (US)", "Call or text **988**"),
   ("💬 Crisis Text Line", "Text HOME to **741741**"),
   ("🇮🇳 iCall (India)", "**9152987821**"),
   ("🇮🇳 Vandrevala Foundation (India)", "**1860-2662-345** (24/7)"),
   ("🌍 International Crisis Centres", "https://www.iasp.info/resources/Crisis_Centres/"),
   ("🚨 Emergency Services", "Call **911** (US) / **112** (EU) / **100** (India)"),
   ("🏥 NIMHANS Helpline (India)", "**080-46110007**"),
   ("💙 Fortis Stress Helpline (India)", "**8376804102**")]

def SAFETY_TIPS : List String :=
  ["Reach out to a trusted friend or family member right now.",
   "Move to a safe, public space if you feel in danger.",
   "Remove access to anything that could be used for self-harm.",
   "Call a crisis line — trained counsellors are available 24/7.",
   "Go to the nearest emergency room if the urge becomes overwhelming.",
   "Practice grounding: name 5 things you can see, 4 you can touch."]

def SAFETY_MESSAGE : String :=
  "You are not alone — your feelings are valid and help is available. Please reach out to a crisis professional immediately."

/-- The dict returned by `SafetyModule.analyze`; the three optional keys are
`Option`s, present exactly when the code's `if risk_flag:` block adds them.
The wall-clock `timestamp` key is omitted from the model. -/
structure SafetyResult where
  risk_flag : Bool
  risk_categories : List String
  severity : String
  emergency_resources : Option (List (String × String))
  safety_tips : Option (List String)
  safety_message : Option String
deriving DecidableEq

/-- `SafetyModule.analyze`. -/
def analyze (text : String) : SafetyResult :=
  let t := pyLower text
  let detected := RISK_PATTERNS.filter (fun p => riskMatches p.2 t)
  let rf := !detected.isEmpty
  { risk_flag := rf
    risk_categories := detected.map (fun p => p.1)
    severity :=
      if (detected.map (fun p => p.1)).contains "suicidal_ideation" then "HIGH"
      else if !detected.isEmpty then "MODERATE"
      else "NONE"
    emergency_resources := if rf then some EMERGENCY_RESOURCES else none
    safety_tips := if rf then some SAFETY_TIPS else none
    safety_message := if rf then some SAFETY_MESSAGE else none }

/-! ### 6. Therapy analytics engine (`TherapyAnalyticsEngine`)

The engine's inputs are the session dicts read back from the store; their
`themes` JSON string is modelled by the decoded list itself (the JSON
round-trip for a list of strings is faithful). -/

/-- One stored session as the engine sees it. -/
structure Session where
  session_id : String := ""
  user_id : String := ""
  emotion : String := "neutral"
  confidence : ℚ := 1/2
  themes : List String := []
  risk_flag : Bool := false
  mood_score : ℚ := 0
  message_count : ℕ := 0
  transcript : List Char := []
  timestamp : String := ""

/-- Python string `≤` (lexicographic on code points). -/
def strLeB : List Char → List Char → Bool
  | [], _ => true
  | _ :: _, [] => false
  | a :: as, b :: bs => a.val.toNat < b.val.toNat || (a == b && strLeB as bs)

def tsLe (a b : Session) : Prop := strLeB a.timestamp.toList b.timestamp.toList = true

instance : DecidableRel tsLe := fun _ _ => instDecidableEqBool _ _

def tsGe (a b : Session) : Prop := strLeB b.timestamp.toList a.timestamp.toList = true

instance : DecidableRel tsGe := fun _ _ => instDecidableEqBool _ _

/-- `sorted(sessions, key=lambda x: x.get("timestamp",""))` (stable). -/
def sortByTsAsc (l : List Session) : List Session := l.insertionSort tsLe

/-- `sorted(sessions, key=..., reverse=True)` (stable). -/
def sortByTsDesc (l : List Session) : List Session := l.insertionSort tsGe

/-- `TherapyAnalyticsEngine.compute_therapy_progress_score`:
`(pos_mask.sum()/n) - ((neg_mask & (confs > 0.60)).sum()/n)`, clipped to
[-1, 1] and rounded to 4 decimals; 0.0 for an empty list. -/
def compute_therapy_progress_score (sessions : List Session) : ℚ :=
  if sessions.isEmpty then 0
  else
    let n : ℚ := sessions.length
    let pos := (sessions.filter (fun s => is_positive s.emotion)).length
    let highAnx := (sessions.filter
      (fun s => is_negative s.emotion && decide ((6 : ℚ)/10 < s.confidence))).length
    round4 (clipQ (-1) 1 ((pos : ℚ) / n - (highAnx : ℚ) / n))

/-- `TherapyAnalyticsEngine.compute_emotional_volatility_index`: variance of
the confidences of the 7 most recent sessions; 0.0 below 2 sessions. -/
def compute_emotional_volatility_index (sessions : List Session) : ℚ :=
  if ((sortByTsDesc sessions).take 7).length < 2 then 0
  else round4 (popVar (((sortByTsDesc sessions).take 7).map (fun s => s.confidence)))

/-- `TherapyAnalyticsEngine.compute_mood_stability_index`: `max(0, 1 - 4*EVI)`
rounded to 4 decimals. -/
def compute_mood_stability_index (sessions : List Session) : ℚ :=
  round4 (max 0 (1 - compute_emotional_volatility_index sessions * 4))

/-- `TherapyAnalyticsEngine.compute_dominant_negative_pct`. -/
def compute_dominant_negative_pct (sessions : List Session) : ℚ :=
  if sessions.isEmpty then 0
  else round4 (((sessions.filter (fun s => is_negative s.emotion)).length : ℚ) / sessions.length)

/-- One `{date, score}` point of a trend series; `date` is `timestamp[:10]`. -/
structure TrendPoint where
  date : List Char
  score : ℚ
deriving DecidableEq

/-- `TherapyAnalyticsEngine.anxiety_trend`: chronologically ordered; score is
the confidence for emotions in {anxiety, depression, stress, trauma}, else 0;
rounded to 3 decimals. -/
def anxiety_trend (sessions : List Session) : List TrendPoint :=
  (sortByTsAsc sessions).map (fun s =>
    let score : ℚ :=
      if (["anxiety", "depression", "stress", "trauma"] : List String).contains s.emotion
      then s.confidence else 0
    ⟨s.timestamp.toList.take 10, round3 score⟩)

/-- First-occurrence-ordered key list of the `grouped` day dict. -/
def dayKeys (l : List (List Char)) : List (List Char) :=
  l.foldl (fun acc d => if acc.contains d then acc else acc ++ [d]) []

def strLeL (a b : List Char) : Prop := strLeB a b = true

instance : DecidableRel strLeL := fun _ _ => instDecidableEqBool _ _

/-- `TherapyAnalyticsEngine.improvement_trend`: per calendar day (keys sorted
ascending), the fraction of that day's sessions with a positive-set emotion,
rounded to 3 decimals. -/
def improvement_trend (sessions : List Session) : List TrendPoint :=
  let days := (dayKeys (sessions.map (fun s => s.timestamp.toList.take 10))).insertionSort strLeL
  days.map (fun d =>
    let dayS := sessions.filter (fun s => s.timestamp.toList.take 10 == d)
    ⟨d, round3 (((dayS.filter (fun s => is_positive s.emotion)).length : ℚ) / dayS.length)⟩)

/-- One `{date, emotion, score}` heatmap entry. -/
structure HeatPoint where
  date : List Char
  emotion : String
  score : ℚ
deriving DecidableEq

/-- `TherapyAnalyticsEngine.emotion_distribution_over_time`. -/
def emotion_distribution_over_time (sessions : List Session) : List HeatPoint :=
  (sortByTsAsc sessions).map (fun s => ⟨s.timestamp.toList.take 10, s.emotion, s.confidence⟩)

/-- `np.convolve(scores, np.ones(w)/w, mode="same")`: centred uniform moving
average, out-of-range neighbours contributing 0. -/
def convSameUniform (scores : List ℚ) (w : ℕ) : List ℚ :=
  (List.range scores.length).map (fun i =>
    ((List.range w).map (fun k =>
      scores.getD (i + (w - 1) / 2 - k) 0 *
        (if k ≤ i + (w - 1) / 2 then 1 else 0))).sum / w)

/-- `TherapyAnalyticsEngine.moving_average_anxiety`: the raw trend when there
are fewer than `window` points, otherwise the convolved scores rounded to 3
decimals. -/
def moving_average_anxiety (sessions : List Session) (window : ℕ := 3) : List TrendPoint :=
  if (anxiety_trend sessions).length < window then anxiety_trend sessions
  else
    ((anxiety_trend sessions).zip
        (convSameUniform ((anxiety_trend sessions).map (fun t => t.score)) window)).map
      (fun p => ⟨p.1.date, round3 p.2⟩)

/-- The `freq` dict of `topic_frequency` in insertion (first-seen) order. -/
def bumpCount (freq : List (String × ℕ)) (t : String) : List (String × ℕ) :=
  if freq.any (fun p => p.1 == t) then
    freq.map (fun p => if p.1 == t then (p.1, p.2 + 1) else p)
  else freq ++ [(t, 1)]

def countGe (a b : String × ℕ) : Prop := b.2 ≤ a.2

instance : DecidableRel countGe := fun _ _ => Nat.decLe _ _

/-- `TherapyAnalyticsEngine.topic_frequency`: theme counts over all sessions,
sorted descending by count (stably, as Python's `sorted(..., reverse=True)`). -/
def topic_frequency (sessions : List Session) : List (String × ℕ) :=
  ((sessions.map (fun s => s.themes)).flatten.foldl bumpCount []).insertionSort countGe

/-- `TherapyAnalyticsEngine.dominant_stressor`: `max(freq, key=freq.get)` with
default `"general_stress"`. -/
def dominant_stressor (sessions : List Session) : String :=
  match topic_frequency sessions with
  | [] => "general_stress"
  | f :: fs => (fs.foldl (fun acc x => if acc.2 < x.2 then x else acc) f).1

/-- `TherapyAnalyticsEngine.categorize_session`. -/
def categorize_session (emotion : String) (confidence : ℚ) : String :=
  if (["anxiety", "depression", "trauma"] : List String).contains emotion
      ∧ 1/2 < confidence then "anxiety"
  else if is_positive emotion then "positive"
  else "neutral"

/-- The dict returned by `statistical_summary` on a non-empty list.
`np.std` is the square root of the population variance, hence `ℝ`-valued. -/
structure StatSummary where
  mean_confidence : ℚ
  std_confidence : ℝ
  min_confidence : ℚ
  max_confidence : ℚ
  median_confidence : ℚ
  session_count : ℕ

/-- `TherapyAnalyticsEngine.statistical_summary`; `none` models the empty
dict `{}` returned for an empty session list. -/
noncomputable def statistical_summary (sessions : List Session) : Option StatSummary :=
  if sessions.isEmpty then none
  else
    let confs := sessions.map (fun s => s.confidence)
    some
      { mean_confidence := round4 (meanQ confs)
        std_confidence := roundTo4R (Real.sqrt (popVar confs : ℝ))
        min_confidence := round4 (listMinQ confs)
        max_confidence := round4 (listMaxQ confs)
        median_confidence := round4 (medianQ confs)
        session_count := sessions.length }

/-! ### 5. Session analytics store (`SessionAnalyticsStore`)

The SQLite table keyed by `session_id` is modelled as a list of rows;
`INSERT OR REPLACE` deletes any row with the same primary key and inserts the
new one. `int(risk_flag)` and `json.dumps(themes)` are modelled by the values
themselves (both encodings are injective). -/

structure SessionRow where
  session_id : String
  user_id : String
  emotion : String
  confidence : ℚ
  themes : List String
  risk_flag : Bool
  mood_score : ℚ
  message_count : ℕ
  transcript : List Char
  timestamp : String
deriving DecidableEq

/-- The row written by `upsert_session`: note `transcript[:2000]` and the
freshly stamped `timestamp` (`datetime.now().isoformat()`, passed as `now`). -/
def mkRow (session_id user_id emotion : String) (confidence : ℚ) (themes : List String)
    (risk_flag : Bool) (mood_score : ℚ) (message_count : ℕ) (transcript : List Char)
    (now : String) : SessionRow :=
  { session_id := session_id, user_id := user_id, emotion := emotion,
    confidence := confidence, themes := themes, risk_flag := risk_flag,
    mood_score := mood_score, message_count := message_count,
    transcript := transcript.take 2000, timestamp := now }

/-- `SessionAnalyticsStore.upsert_session` (`INSERT OR REPLACE` on the
`session_id` primary key). -/
def upsert_session (db : List SessionRow) (session_id user_id emotion : String)
    (confidence : ℚ) (themes : List String) (risk_flag : Bool) (mood_score : ℚ)
    (message_count : ℕ) (transcript : List Char) (now : String) : List SessionRow :=
  db.filter (fun r => !(r.session_id == session_id)) ++
    [mkRow session_id user_id emotion confidence themes risk_flag mood_score
      message_count transcript now]

/-- The arguments of one `upsert_session` call, with the wall-clock time `now`
at which it runs. -/
structure UpsertCall where
  session_id : String
  user_id : String
  emotion : String
  confidence : ℚ
  themes : List String
  risk_flag : Bool
  mood_score : ℚ
  message_count : ℕ
  transcript : List Char
  now : String

def doUpsert (db : List SessionRow) (c : UpsertCall) : List SessionRow :=
  upsert_session db c.session_id c.user_id c.emotion c.confidence c.themes
    c.risk_flag c.mood_score c.message_count c.transcript c.now

/-- The store contents after a sequence of `upsert_session` calls on a fresh
database. -/
def applyUpserts (calls : List UpsertCall) : List SessionRow :=
  calls.foldl doUpsert []

/-- Number of rows holding a given `session_id`. -/
def idCount (db : List SessionRow) (sid : String) : ℕ :=
  db.countP (fun r => r.session_id == sid)

/-! ### Concrete scenario data -/

/-- End-to-end scenario A text. -/
def scenA : String := "I feel hopeless and empty, nothing matters anymore"

/-- End-to-end scenario B text. -/
def scenB : String := "I want to kill myself, I can't go on"

/-- End-to-end scenario C: the two sessions stored for user `"u1"`. -/
def scenCsessions : List Session :=
  [{ session_id := "s1", user_id := "u1", emotion := "positive", confidence := 8/10,
     timestamp := "2024-01-01T10:00:00" },
   { session_id := "s2", user_id := "u1", emotion := "anxiety", confidence := 9/10,
     timestamp := "2024-01-02T10:00:00" }]

/-- Three sessions, one positive and no high-confidence negative: the raw
progress fraction is 1/3, which is not a 4-decimal value. -/
def tpsCex : List Session :=
  [{ session_id := "a", emotion := "positive", confidence := 1/2, timestamp := "t1" },
   { session_id := "b", emotion := "anger", confidence := 1/2, timestamp := "t2" },
   { session_id := "c", emotion := "anger", confidence := 1/2, timestamp := "t3" }]

/-- A single anxiety session whose confidence `0.4567` is a 4-decimal value
but not a 3-decimal one. -/
def roundCexSession : Session :=
  { session_id := "r", emotion := "anxiety", confidence := 4567/10000,
    timestamp := "2024-01-01" }

/-- A single session (for the fewer-than-two-sessions edge cases). -/
def oneSession : Session :=
  { session_id := "o", emotion := "anxiety", confidence := 9/10,
    timestamp := "2024-01-03T09:00:00" }

/-! ### Rounding lemmas -/

theorem rheInt_floor_le (x : ℚ) : ⌊x⌋ ≤ rheInt x := by
  unfold rheInt
  split_ifs <;> omega

theorem rheInt_le_floor_add_one (x : ℚ) : rheInt x ≤ ⌊x⌋ + 1 := by
  unfold rheInt
  split_ifs <;> omega

theorem rheInt_intCast (k : ℤ) : rheInt (k : ℚ) = k := by
  unfold rheInt
  rw [Int.floor_intCast]
  split_ifs with h1 h2
  · rfl
  · exfalso
    simp only [sub_self] at h2
    exact absurd h2 (by norm_num)
  all_goals
    simp only [sub_self] at h1
    exact absurd h1 (by norm_num)

theorem rheInt_mono {x y : ℚ} (h : x ≤ y) : rheInt x ≤ rheInt y := by
  rcases lt_or_eq_of_le (Int.floor_le_floor h) with hf | hf
  · calc rheInt x ≤ ⌊x⌋ + 1 := rheInt_le_floor_add_one x
      _ ≤ ⌊y⌋ := hf
      _ ≤ rheInt y := rheInt_floor_le y
  · unfold rheInt
    rw [← hf]
    have hr : x - ⌊x⌋ ≤ y - ⌊x⌋ := by linarith
    split_ifs <;> first | omega | linarith

theorem rheInt_eq_of_lt {x : ℚ} {n : ℤ} (h1 : ⌊x⌋ = n) (h2 : x - n < 1/2) :
    rheInt x = n := by
  unfold rheInt
  rw [h1, if_pos h2]

theorem rheInt_eq_of_gt {x : ℚ} {n : ℤ} (h1 : ⌊x⌋ = n) (h2 : 1/2 < x - n) :
    rheInt x = n + 1 := by
  unfold rheInt
  rw [h1, if_neg (by linarith), if_pos h2]

theorem roundTo_eq_of_lt {d : ℕ} {x : ℚ} {n : ℤ} (h1 : ⌊x * 10 ^ d⌋ = n)
    (h2 : x * 10 ^ d - n < 1/2) : roundTo d x = (n : ℚ) / 10 ^ d := by
  unfold roundTo
  rw [rheInt_eq_of_lt h1 h2]

theorem roundTo_eq_of_gt {d : ℕ} {x : ℚ} {n : ℤ} (h1 : ⌊x * 10 ^ d⌋ = n)
    (h2 : 1/2 < x * 10 ^ d - n) : roundTo d x = ((n : ℚ) + 1) / 10 ^ d := by
  unfold roundTo
  rw [rheInt_eq_of_gt h1 h2]
  push_cast
  ring

theorem roundTo_mono {d : ℕ} {x y : ℚ} (h : x ≤ y) : roundTo d x ≤ roundTo d y := by
  unfold roundTo
  have hp : (0 : ℚ) ≤ 10 ^ d := by positivity
  have hm : rheInt (x * 10 ^ d) ≤ rheInt (y * 10 ^ d) :=
    rheInt_mono (mul_le_mul_of_nonneg_right h hp)
  have hm' : ((rheInt (x * 10 ^ d) : ℚ)) ≤ ((rheInt (y * 10 ^ d) : ℚ)) := by exact_mod_cast hm
  exact (div_le_div_iff_of_pos_right (by positivity)).mpr hm'

/-- `round(x, d)` is the identity on rationals that are already exact
`d`-decimal values. -/
theorem roundTo_int_div (d : ℕ) (k : ℤ) : roundTo d ((k : ℚ) / 10 ^ d) = (k : ℚ) / 10 ^ d := by
  unfold roundTo
  have hne : ((10 : ℚ) ^ d) ≠ 0 := by positivity
  rw [div_mul_cancel₀ _ hne, rheInt_intCast]

theorem roundTo_isDp (d : ℕ) (x : ℚ) : isDp d (roundTo d x) :=
  ⟨rheInt (x * 10 ^ d), rfl⟩

theorem roundTo_fix {d : ℕ} {x : ℚ} (h : isDp d x) : roundTo d x = x := by
  obtain ⟨k, rfl⟩ := h
  exact roundTo_int_div d k

theorem isDp_min {d : ℕ} {a b : ℚ} (ha : isDp d a) (hb : isDp d b) : isDp d (min a b) := by
  rcases min_choice a b with h | h <;> rw [h] <;> assumption

theorem round4_zero : round4 0 = 0 := by
  have := roundTo_int_div 4 0
  simpa [round4] using this

theorem round4_one : round4 1 = 1 := by
  have h : ((10 ^ 4 : ℤ) : ℚ) / 10 ^ 4 = 1 := by norm_num
  have := roundTo_int_div 4 (10 ^ 4)
  rw [h] at this
  exact this

theorem round4_nonneg {x : ℚ} (h : 0 ≤ x) : 0 ≤ round4 x := by
  have := roundTo_mono (d := 4) h
  rw [show roundTo 4 0 = 0 from round4_zero] at this
  exact this

theorem round4_le_one {x : ℚ} (h : x ≤ 1) : round4 x ≤ 1 := by
  have := roundTo_mono (d := 4) h
  rw [show roundTo 4 1 = 1 from round4_one] at this
  exact this

/-! ### Classifier lemmas -/

theorem pyMaxFold_mem (d : String × ℚ) (l : List (String × ℚ)) :
    pyMaxFold d l ∈ d :: l := by
  induction l generalizing d with
  | nil => exact List.mem_singleton.mpr rfl
  | cons x xs ih =>
    have h := ih (if d.2 < x.2 then x else d)
    unfold pyMaxFold at h ⊢
    rw [List.foldl_cons]
    rcases List.mem_cons.mp h with h1 | h1
    · rw [h1]
      split_ifs
      · exact List.mem_cons_of_mem _ (List.mem_cons_self _ _)
      · exact List.mem_cons_self _ _
    · exact List.mem_cons_of_mem _ (List.mem_cons_of_mem _ h1)

theorem pyMaxFold_ge (d : String × ℚ) (l : List (String × ℚ)) :
    ∀ p ∈ d :: l, p.2 ≤ (pyMaxFold d l).2 := by
  induction l generalizing d with
  | nil =>
    intro p hp
    rw [List.mem_singleton] at hp
    rw [hp]
    exact le_refl _
  | cons x xs ih =>
    intro p hp
    have hge := ih (if d.2 < x.2 then x else d)
    unfold pyMaxFold at hge ⊢
    rw [List.foldl_cons]
    have hstep : d.2 ≤ (if d.2 < x.2 then x else d).2 ∧
        x.2 ≤ (if d.2 < x.2 then x else d).2 := by
      split_ifs with h
      · exact ⟨le_of_lt h, le_refl _⟩
      · exact ⟨le_refl _, le_of_not_lt h⟩
    rcases List.mem_cons.mp hp with h1 | h1
    · calc p.2 = d.2 := by rw [h1]
        _ ≤ _ := hstep.1
        _ ≤ _ := hge _ (List.mem_cons_self _ _)
    · rcases List.mem_cons.mp h1 with h2 | h2
      · calc p.2 = x.2 := by rw [h2]
          _ ≤ _ := hstep.2
          _ ≤ _ := hge _ (List.mem_cons_self _ _)
      · exact hge _ (List.mem_cons_of_mem _ h2)

/-- Every entry of the `scores` dict comes from a pattern-table row with at
least one keyword hit, and records `round(min(hits,6)/6 * weight, 4)`. -/
theorem classifyScores_mem {T : String} {p : String × ℚ} (hp : p ∈ classifyScores T) :
    ∃ e ∈ EMOTION_PATTERNS, ∃ h : ℕ, 1 ≤ h ∧
      p = (e.1, round4 (((min h 6 : ℕ) : ℚ) / 6 * e.2.2)) := by
  unfold classifyScores at hp
  simp only [List.mem_filterMap] at hp
  obtain ⟨e, he, hfe⟩ := hp
  by_cases h0 : kwHits e.2.1 (pyLower T) = 0
  · rw [if_pos h0] at hfe
    cases hfe
  · rw [if_neg h0] at hfe
    exact ⟨e, he, kwHits e.2.1 (pyLower T), Nat.one_le_iff_ne_zero.mpr h0,
      (Option.some_inj.mp hfe).symm⟩

/-- Every weight in the emotion table is at least 0.4 (the `neutral` weight). -/
theorem emotion_weight_lb : ∀ e ∈ EMOTION_PATTERNS, (2 : ℚ)/5 ≤ e.2.2 := by
  intro e he
  fin_cases he <;> norm_num

theorem round4_q15 : round4 (1/15 : ℚ) = 667/10000 := by
  unfold round4
  rw [roundTo_eq_of_gt (n := 666) (by norm_num) (by norm_num)]
  norm_num

/-- Any recorded score is at least `round(1/6 * 0.4, 4) = 0.0667`. -/
theorem classifyScores_lb {T : String} {p : String × ℚ} (hp : p ∈ classifyScores T) :
    667/10000 ≤ p.2 := by
  obtain ⟨e, he, h, h1, rfl⟩ := classifyScores_mem hp
  have hw := emotion_weight_lb e he
  have hmin : (1 : ℚ) ≤ ((min h 6 : ℕ) : ℚ) := by
    exact_mod_cast le_min h1 (by norm_num)
  have hraw : (1 : ℚ)/15 ≤ ((min h 6 : ℕ) : ℚ) / 6 * e.2.2 := by
    calc (1 : ℚ)/15 = 1/6 * (2/5) := by norm_num
      _ ≤ ((min h 6 : ℕ) : ℚ) / 6 * e.2.2 :=
        mul_le_mul (by linarith) hw (by norm_num) (by linarith)
  calc (667 : ℚ)/10000 = round4 (1/15) := round4_q15.symm
    _ ≤ round4 _ := roundTo_mono hraw

theorem classifyScores_isDp {T : String} {p : String × ℚ} (hp : p ∈ classifyScores T) :
    isDp 4 p.2 := by
  obtain ⟨e, _, h, _, rfl⟩ := classifyScores_mem hp
  exact roundTo_isDp 4 _

/-- The reported confidence `round(min(score + 0.28, 1.0), 4)` equals
`min(score + 0.28, 1.0)` outright, because the score is a 4-decimal value. -/
theorem round4_min_conf {v : ℚ} (hv : isDp 4 v) :
    round4 (min (v + 28/100) 1) = min (v + 28/100) 1 := by
  apply roundTo_fix
  apply isDp_min
  · obtain ⟨k, rfl⟩ := hv
    refine ⟨k + 2800, ?_⟩
    push_cast
    ring
  · exact ⟨10 ^ 4, by norm_num⟩

/-- On the scenario-A text only the `depression` category hits (keywords
`"hopeless"` and `"empty"`), scoring `round(min(2,6)/6 * 1.0, 4) = 0.3333`. -/
theorem classifyScores_scenA : classifyScores scenA = [("depression", 3333/10000)] := by
  have h1 : kwHits anxietyKws (pyLower scenA) = 0 := by decide
  have h2 : kwHits depressionKws (pyLower scenA) = 2 := by decide
  have h3 : kwHits stressKws (pyLower scenA) = 0 := by decide
  have h4 : kwHits lonelinessKws (pyLower scenA) = 0 := by decide
  have h5 : kwHits angerKws (pyLower scenA) = 0 := by decide
  have h6 : kwHits traumaKws (pyLower scenA) = 0 := by decide
  have h7 : kwHits neutralKws (pyLower scenA) = 0 := by decide
  have h8 : kwHits positiveKws (pyLower scenA) = 0 := by decide
  unfold classifyScores EMOTION_PATTERNS
  simp only [List.filterMap_cons, List.filterMap_nil, h1, h2, h3, h4, h5, h6, h7, h8]
  norm_num
  unfold round4
  rw [roundTo_eq_of_lt (n := 3333) (by norm_num) (by norm_num)]
  norm_num

/-- On `"happy"` only the `positive` category hits (keyword `"happy"`),
scoring `round(min(1,6)/6 * 0.7, 4) = 0.1167`. -/
theorem classifyScores_happy : classifyScores "happy" = [("positive", 1167/10000)] := by
  have h1 : kwHits anxietyKws (pyLower "happy") = 0 := by decide
  have h2 : kwHits depressionKws (pyLower "happy") = 0 := by decide
  have h3 : kwHits stressKws (pyLower "happy") = 0 := by decide
  have h4 : kwHits lonelinessKws (pyLower "happy") = 0 := by decide
  have h5 : kwHits angerKws (pyLower "happy") = 0 := by decide
  have h6 : kwHits traumaKws (pyLower "happy") = 0 := by decide
  have h7 : kwHits neutralKws (pyLower "happy") = 0 := by decide
  have h8 : kwHits positiveKws (pyLower "happy") = 1 := by decide
  unfold classifyScores EMOTION_PATTERNS
  simp only [List.filterMap_cons, List.filterMap_nil, h1, h2, h3, h4, h5, h6, h7, h8]
  norm_num
  unfold round4
  rw [roundTo_eq_of_gt (n := 1166) (by norm_num) (by norm_num)]
  norm_num

/-- C1: for every text `T`, `SafetyModule.analyze(T)` reports severity
`"HIGH"` exactly when a `suicidal_ideation` pattern matches (regardless of
the other categories), `"MODERATE"` when any of the other three risk
categories matches but `suicidal_ideation` does not, and `"NONE"` when no
risk category matches. -/
theorem severity_policy (T : String) :
    (analyze T).severity =
      (if riskMatches suicidalAlts (pyLower T) then "HIGH"
       else if riskMatches selfHarmAlts (pyLower T) || riskMatches intentAlts (pyLower T)
          || riskMatches substanceAlts (pyLower T) then "MODERATE"
       else "NONE") := by
  cases h1 : riskMatches suicidalAlts (pyLower T) <;>
    cases h2 : riskMatches selfHarmAlts (pyLower T) <;>
      cases h3 : riskMatches intentAlts (pyLower T) <;>
        cases h4 : riskMatches substanceAlts (pyLower T) <;>
          simp [analyze, RISK_PATTERNS, h1, h2, h3, h4]

/-- C2: the optional fields `emergency_resources`, `safety_tips` and
`safety_message` are present in `analyze(T)`'s result exactly when
`risk_flag` is true; and on the scenario-B text
`"I want to kill myself, I can't go on"`, `analyze` returns
`risk_flag = True`, `"suicidal_ideation"` among the risk categories,
severity `"HIGH"`, and a populated `emergency_resources`. -/
theorem optional_fields_iff_risk :
    (∀ T : String,
      (analyze T).emergency_resources.isSome = (analyze T).risk_flag ∧
      (analyze T).safety_tips.isSome = (analyze T).risk_flag ∧
      (analyze T).safety_message.isSome = (analyze T).risk_flag) ∧
    (analyze scenB).risk_flag = true ∧
    "suicidal_ideation" ∈ (analyze scenB).risk_categories ∧
    (analyze scenB).severity = "HIGH" ∧
    (analyze scenB).emergency_resources = some EMERGENCY_RESOURCES := by
  refine ⟨fun T => ?_, by decide, by decide, by decide, by decide⟩
  cases h : (RISK_PATTERNS.filter (fun p => riskMatches p.2 (pyLower T))).isEmpty <;>
    simp [analyze, h]

/-- C5: `classify` returns `("neutral", 0.30)` when no category's keywords
match; otherwise its label attains the maximum score and the reported
confidence equals `min(score + 0.28, 1.0)`; and the confidence always lies
in [0, 1]. -/
theorem classify_policy (T : String) :
    (classifyScores T = [] →
      classify T = ⟨"neutral", 3/10, [("neutral", 3/10)]⟩) ∧
    (classifyScores T ≠ [] →
      ∃ p ∈ classifyScores T,
        (classify T).emotion_label = p.1 ∧
        (∀ q ∈ classifyScores T, q.2 ≤ p.2) ∧
        (classify T).confidence_score = min (p.2 + 28/100) 1) ∧
    (0 ≤ (classify T).confidence_score ∧ (classify T).confidence_score ≤ 1) := by
  refine ⟨?_, ?_, ?_⟩
  · intro h
    unfold classify
    rw [h]
  · intro hne
    rcases hsc : classifyScores T with _ | ⟨s, rest⟩
    · exact absurd hsc hne
    · have hmemT : pyMaxFold s rest ∈ classifyScores T := by
        rw [hsc]
        exact pyMaxFold_mem s rest
      refine ⟨pyMaxFold s rest, pyMaxFold_mem s rest, ?_, ?_, ?_⟩
      · simp only [classify, hsc]
      · intro q hq
        exact pyMaxFold_ge s rest q hq
      · simp only [classify, hsc]
        exact round4_min_conf (classifyScores_isDp hmemT)
  · rcases hsc : classifyScores T with _ | ⟨s, rest⟩ <;> simp only [classify, hsc]
    · norm_num
    · have hmem : pyMaxFold s rest ∈ classifyScores T := by
        rw [hsc]
        exact pyMaxFold_mem s rest
      have hlb := classifyScores_lb hmem
      constructor
      · exact round4_nonneg (le_min (by linarith) (by norm_num))
      · exact round4_le_one (min_le_right _ _)

/-- Witness for C5: the no-match branch at `"xyz"` and the matching branch
at `"happy"`, with the theorem's hypotheses discharged concretely. -/
theorem classify_policy_witness :
    (classifyScores "xyz" = [] ∧
      classify "xyz" = ⟨"neutral", 3/10, [("neutral", 3/10)]⟩) ∧
    (classifyScores "happy" ≠ [] ∧
      ∃ p ∈ classifyScores "happy",
        (classify "happy").emotion_label = p.1 ∧
        (∀ q ∈ classifyScores "happy", q.2 ≤ p.2) ∧
        (classify "happy").confidence_score = min (p.2 + 28/100) 1) :=
  ⟨⟨by decide, (classify_policy "xyz").1 (by decide)⟩,
   ⟨by decide, (classify_policy "happy").2.1 (by decide)⟩⟩

/-- C8: scenario A — on `"I feel hopeless and empty, nothing matters
anymore"`, `classify` returns label `"depression"` with confidence
`0.6133 > 0.5`, and `analyze` finds no risk (`risk_flag = False`,
severity `"NONE"`). -/
theorem scenarioA_results :
    (classify scenA).emotion_label = "depression" ∧
    1/2 < (classify scenA).confidence_score ∧
    (analyze scenA).risk_flag = false ∧
    (analyze scenA).severity = "NONE" := by
  refine ⟨?_, ?_, by decide, by decide⟩
  · simp [classify, classifyScores_scenA, pyMaxFold]
  · simp only [classify, classifyScores_scenA]
    have h1 : min ((3333 : ℚ)/10000 + 28/100) 1 = 6133/10000 := by
      rw [min_eq_left (by norm_num)]
      norm_num
    simp only [pyMaxFold, List.foldl_nil, h1]
    rw [show (6133 : ℚ)/10000 = ((6133 : ℤ) : ℚ)/10 ^ 4 by norm_num]
    rw [show round4 (((6133 : ℤ) : ℚ)/10 ^ 4) = ((6133 : ℤ) : ℚ)/10 ^ 4 from
      roundTo_int_div 4 6133]
    norm_num

/-! ### Therapy-progress-score lemmas -/

theorem tps_nil : compute_therapy_progress_score [] = 0 := by
  simp [compute_therapy_progress_score]

/-- The progress score is exactly the spec's fraction difference, clipped to
[-1, 1] and then rounded to 4 decimal places. -/
theorem tps_spec_eq (sessions : List Session) :
    compute_therapy_progress_score sessions =
      round4 (clipQ (-1) 1
        (((sessions.countP fun s =>
            (["positive", "neutral"] : List String).contains s.emotion) : ℚ) / sessions.length -
         ((sessions.countP fun s =>
            (["anxiety", "depression", "stress", "loneliness", "anger", "trauma"] : List String).contains s.emotion
              && decide ((6 : ℚ)/10 < s.confidence)) : ℚ) / sessions.length)) := by
  unfold compute_therapy_progress_score
  rcases sessions with _ | ⟨s, rest⟩
  · simp only [List.isEmpty_nil, if_true, List.countP_nil, List.length_nil]
    rw [show ((0 : ℕ) : ℚ) / ((0 : ℕ) : ℚ) - ((0 : ℕ) : ℚ) / ((0 : ℕ) : ℚ) = 0 by norm_num]
    unfold clipQ
    rw [max_eq_right (by norm_num : (-1 : ℚ) ≤ 0), min_eq_right (by norm_num : (0 : ℚ) ≤ 1)]
    exact round4_zero.symm
  · rw [List.countP_eq_length_filter, List.countP_eq_length_filter]
    simp only [List.isEmpty_cons, Bool.false_eq_true, if_false]
    rfl

theorem tps_scenC : compute_therapy_progress_score scenCsessions = 0 := by
  have c1 : is_positive "positive" = true := by decide
  have c2 : is_positive "anxiety" = false := by decide
  have d1 : (is_negative "positive" && decide ((6 : ℚ)/10 < (8 : ℚ)/10)) = false := by
    have h : is_negative "positive" = false := by decide
    simp [h]
  have d2 : (is_negative "anxiety" && decide ((6 : ℚ)/10 < (9 : ℚ)/10)) = true := by
    have h1 : is_negative "anxiety" = true := by decide
    have h2 : ((6 : ℚ)/10 < (9 : ℚ)/10) := by norm_num
    simp [h1, h2]
  unfold compute_therapy_progress_score scenCsessions
  simp only [List.isEmpty_cons, Bool.false_eq_true, if_false, List.filter_cons,
    List.filter_nil, List.length_cons, List.length_nil, c1, c2, d1, d2]
  norm_num
  unfold clipQ
  rw [max_eq_right (by norm_num : (-1 : ℚ) ≤ 0), min_eq_right (by norm_num : (0 : ℚ) ≤ 1)]
  exact round4_zero

theorem tps_cex_eval : compute_therapy_progress_score tpsCex = 3333/10000 := by
  have c1 : is_positive "positive" = true := by decide
  have c2 : is_positive "anger" = false := by decide
  have d1 : (is_negative "positive" && decide ((6 : ℚ)/10 < (1 : ℚ)/2)) = false := by
    have h : is_negative "positive" = false := by decide
    simp [h]
  have d2 : (is_negative "anger" && decide ((6 : ℚ)/10 < (1 : ℚ)/2)) = false := by
    have h : decide ((6 : ℚ)/10 < (1 : ℚ)/2) = false := by
      rw [decide_eq_false_iff_not]
      norm_num
    rw [h, Bool.and_false]
  unfold compute_therapy_progress_score tpsCex
  simp only [List.isEmpty_cons, Bool.false_eq_true, if_false, List.filter_cons,
    List.filter_nil, List.length_cons, List.length_nil, c1, c2, d1, d2]
  norm_num
  unfold clipQ
  rw [max_eq_right (by norm_num : (-1 : ℚ) ≤ 1/3), min_eq_right (by norm_num : (1 : ℚ)/3 ≤ 1)]
  unfold round4
  rw [roundTo_eq_of_lt (n := 3333) (by norm_num) (by norm_num)]
  norm_num

theorem tps_cex_frac :
    ((tpsCex.countP fun s =>
        (["positive", "neutral"] : List String).contains s.emotion) : ℚ) / tpsCex.length -
      ((tpsCex.countP fun s =>
        (["anxiety", "depression", "stress", "loneliness", "anger", "trauma"] : List String).contains s.emotion
          && decide ((6 : ℚ)/10 < s.confidence)) : ℚ) / tpsCex.length = 1/3 := by
  have c1 : (["positive", "neutral"] : List String).contains "positive" = true := by decide
  have c2 : (["positive", "neutral"] : List String).contains "anger" = false := by decide
  have d1 : ((["anxiety", "depression", "stress", "loneliness", "anger", "trauma"] : List String).contains "positive"
      && decide ((6 : ℚ)/10 < (1 : ℚ)/2)) = false := by
    have h : (["anxiety", "depression", "stress", "loneliness", "anger", "trauma"] : List String).contains "positive" = false := by decide
    rw [h, Bool.false_and]
  have d2 : ((["anxiety", "depression", "stress", "loneliness", "anger", "trauma"] : List String).contains "anger"
      && decide ((6 : ℚ)/10 < (1 : ℚ)/2)) = false := by
    have h : decide ((6 : ℚ)/10 < (1 : ℚ)/2) = false := by
      rw [decide_eq_false_iff_not]
      norm_num
    rw [h, Bool.and_false]
  unfold tpsCex
  simp only [List.countP_cons, List.countP_nil, List.length_cons, List.length_nil,
    c1, c2, d1, d2]
  norm_num

/-- C3, corrected: the claim omits the final rounding to 4 decimal places.
On `tpsCex` the clamped fraction difference is `1/3`, but the code returns
`round(1/3, 4) = 0.3333 ≠ 1/3`. -/
theorem therapy_progress_score_cex :
    compute_therapy_progress_score tpsCex ≠
      clipQ (-1) 1
        (((tpsCex.countP fun s =>
            (["positive", "neutral"] : List String).contains s.emotion) : ℚ) / tpsCex.length -
         ((tpsCex.countP fun s =>
            (["anxiety", "depression", "stress", "loneliness", "anger", "trauma"] : List String).contains s.emotion
              && decide ((6 : ℚ)/10 < s.confidence)) : ℚ) / tpsCex.length) := by
  rw [tps_cex_eval, tps_cex_frac]
  unfold clipQ
  rw [max_eq_right (by norm_num : (-1 : ℚ) ≤ 1/3), min_eq_right (by norm_num : (1 : ℚ)/3 ≤ 1)]
  norm_num

/-- C3 (amended): `compute_therapy_progress_score` equals the fraction of
positive-set sessions minus the fraction of negative-set sessions with
confidence above 0.60, clamped to [-1, 1] **and rounded to 4 decimal
places**; it returns 0.0 on the empty list, and 0.0 on the scenario-C pair
of sessions ((1/2) − (1/2) = 0). -/
theorem therapy_progress_score_spec :
    (∀ sessions : List Session,
      compute_therapy_progress_score sessions =
        round4 (clipQ (-1) 1
          (((sessions.countP fun s =>
              (["positive", "neutral"] : List String).contains s.emotion) : ℚ) / sessions.length -
           ((sessions.countP fun s =>
              (["anxiety", "depression", "stress", "loneliness", "anger", "trauma"] : List String).contains s.emotion
                && decide ((6 : ℚ)/10 < s.confidence)) : ℚ) / sessions.length))) ∧
    compute_therapy_progress_score [] = 0 ∧
    compute_therapy_progress_score scenCsessions = 0 :=
  ⟨tps_spec_eq, tps_nil, tps_scenC⟩

/-! ### Engine empty-input lemmas -/

theorem evi_nil : compute_emotional_volatility_index [] = 0 := by
  simp [compute_emotional_volatility_index, sortByTsDesc]

theorem evi_short (sessions : List Session) (h : sessions.length < 2) :
    compute_emotional_volatility_index sessions = 0 := by
  unfold compute_emotional_volatility_index sortByTsDesc
  rw [if_pos]
  rw [List.length_take, List.length_insertionSort]
  omega

theorem msi_nil : compute_mood_stability_index [] = 1 := by
  unfold compute_mood_stability_index
  rw [evi_nil]
  rw [show (1 - (0 : ℚ) * 4) = 1 by norm_num]
  rw [max_eq_right (by norm_num : (0 : ℚ) ≤ 1)]
  exact round4_one

theorem pct_nil : compute_dominant_negative_pct [] = 0 := by
  simp [compute_dominant_negative_pct]

theorem anxiety_trend_nil : anxiety_trend [] = [] := by
  simp [anxiety_trend, sortByTsAsc]

theorem anxiety_trend_length (sessions : List Session) :
    (anxiety_trend sessions).length = sessions.length := by
  unfold anxiety_trend sortByTsAsc
  rw [List.length_map, List.length_insertionSort]

theorem improvement_trend_nil : improvement_trend [] = [] := by
  simp [improvement_trend, dayKeys]

theorem moving_average_nil (w : ℕ) : moving_average_anxiety [] w = [] := by
  unfold moving_average_anxiety
  rw [anxiety_trend_nil]
  simp

theorem moving_average_short (sessions : List Session) (w : ℕ)
    (h : sessions.length < w) :
    moving_average_anxiety sessions w = anxiety_trend sessions := by
  unfold moving_average_anxiety
  rw [if_pos]
  rw [anxiety_trend_length]
  exact h

theorem heatmap_nil : emotion_distribution_over_time [] = [] := by
  simp [emotion_distribution_over_time, sortByTsAsc]

theorem topic_frequency_nil : topic_frequency [] = [] := by
  simp [topic_frequency]

theorem statistical_summary_nil : statistical_summary [] = none := by
  simp [statistical_summary]

theorem dominant_stressor_nil : dominant_stressor [] = "general_stress" := by
  simp [dominant_stressor, topic_frequency_nil]

/-- C4, corrected: on the empty session list `compute_mood_stability_index`
returns 1.0 — `max(0, 1 − 4·0)` rounded — not the 0.0 the claim assigns to
every scalar index. -/
theorem engine_empty_cex : compute_mood_stability_index [] = 1 ∧ (1 : ℚ) ≠ 0 :=
  ⟨msi_nil, by norm_num⟩

/-- C4 (amended): every session-list function of `TherapyAnalyticsEngine`
returns its defined default on the empty list — 0.0 for the progress score,
volatility index and dominant-negative percentage, **1.0 for the
mood-stability index**, the empty list for the time-series, the empty map
for `topic_frequency` and `statistical_summary`, and `"general_stress"` for
`dominant_stressor` — and never raises; `compute_emotional_volatility_index`
returns 0.0 whenever fewer than 2 sessions exist, and
`moving_average_anxiety` returns the raw unsmoothed trend when fewer than
`window` points exist. -/
theorem engine_empty_defaults :
    compute_therapy_progress_score [] = 0 ∧
    compute_emotional_volatility_index [] = 0 ∧
    compute_mood_stability_index [] = 1 ∧
    compute_dominant_negative_pct [] = 0 ∧
    anxiety_trend [] = [] ∧
    improvement_trend [] = [] ∧
    (∀ w : ℕ, moving_average_anxiety [] w = []) ∧
    emotion_distribution_over_time [] = [] ∧
    topic_frequency [] = [] ∧
    statistical_summary [] = none ∧
    dominant_stressor [] = "general_stress" ∧
    (∀ sessions : List Session, sessions.length < 2 →
      compute_emotional_volatility_index sessions = 0) ∧
    (∀ (sessions : List Session) (w : ℕ), sessions.length < w →
      moving_average_anxiety sessions w = anxiety_trend sessions) :=
  ⟨tps_nil, evi_nil, msi_nil, pct_nil, anxiety_trend_nil, improvement_trend_nil,
   moving_average_nil, heatmap_nil, topic_frequency_nil, statistical_summary_nil,
   dominant_stressor_nil, evi_short, moving_average_short⟩

/-- Witness for C4's hypothesis-bearing conjuncts, at a concrete single
session. -/
theorem engine_empty_defaults_witness :
    compute_emotional_volatility_index [oneSession] = 0 ∧
    moving_average_anxiety [oneSession] 3 = anxiety_trend [oneSession] := by
  obtain ⟨-, -, -, -, -, -, -, -, -, -, -, h12, h13⟩ := engine_empty_defaults
  exact ⟨h12 [oneSession] (by norm_num), h13 [oneSession] 3 (by norm_num)⟩

/-! ### Rounding-width lemmas for the engine -/

theorem anxiety_trend_isDp3 (sessions : List Session) :
    ∀ p ∈ anxiety_trend sessions, isDp 3 p.score := by
  intro p hp
  unfold anxiety_trend at hp
  rw [List.mem_map] at hp
  obtain ⟨s, -, rfl⟩ := hp
  exact roundTo_isDp 3 _

/-- C7, corrected: the per-point trend scores are rounded to 3 decimal
places, not 4. For a session with confidence `0.4567` (itself an exact
4-decimal value, so 4-decimal rounding would leave it unchanged),
`anxiety_trend` reports `0.457`. -/
theorem trend_rounding_cex :
    anxiety_trend [roundCexSession] =
      [⟨("2024-01-01" : String).toList, 457/1000⟩] ∧
    round4 ((4567 : ℚ)/10000) = 4567/10000 ∧
    ((457 : ℚ)/1000) ≠ 4567/10000 := by
  refine ⟨?_, ?_, by norm_num⟩
  · have hdate : ("2024-01-01" : String).toList.take 10 = ("2024-01-01" : String).toList := by
      decide
    have hc : (["anxiety", "depression", "stress", "trauma"] : List String).contains "anxiety" = true := by
      decide
    have hr : round3 ((4567 : ℚ)/10000) = 457/1000 := by
      unfold round3
      rw [roundTo_eq_of_gt (n := 456) (by norm_num) (by norm_num)]
      norm_num
    unfold anxiety_trend sortByTsAsc roundCexSession
    simp only [List.insertionSort, List.orderedInsert, List.map_cons, List.map_nil,
      hc, if_true, hdate, hr]
  · rw [show (4567 : ℚ)/10000 = ((4567 : ℤ) : ℚ)/10 ^ 4 by norm_num]
    exact roundTo_int_div 4 4567

/-- C7 (amended): the scalar indices and the `statistical_summary` fields
are rounded to 4 decimal places, while the per-point scores of
`anxiety_trend`, `improvement_trend` and `moving_average_anxiety` are
rounded to 3 decimal places. -/
theorem rounding_semantics (sessions : List Session) :
    isDp 4 (compute_therapy_progress_score sessions) ∧
    isDp 4 (compute_emotional_volatility_index sessions) ∧
    isDp 4 (compute_mood_stability_index sessions) ∧
    isDp 4 (compute_dominant_negative_pct sessions) ∧
    (anxiety_trend sessions).Forall (fun p => isDp 3 p.score) ∧
    (improvement_trend sessions).Forall (fun p => isDp 3 p.score) ∧
    (∀ w : ℕ, (moving_average_anxiety sessions w).Forall (fun p => isDp 3 p.score)) ∧
    (statistical_summary sessions).elim True (fun st =>
      isDp 4 st.mean_confidence ∧ isDpR 4 st.std_confidence ∧
      isDp 4 st.min_confidence ∧ isDp 4 st.max_confidence ∧
      isDp 4 st.median_confidence) := by
  refine ⟨?_, ?_, ?_, ?_, ?_, ?_, ?_, ?_⟩
  · unfold compute_therapy_progress_score
    split_ifs
    · exact ⟨0, by norm_num⟩
    · exact roundTo_isDp 4 _
  · unfold compute_emotional_volatility_index
    split_ifs
    · exact ⟨0, by norm_num⟩
    · exact roundTo_isDp 4 _
  · exact roundTo_isDp 4 _
  · unfold compute_dominant_negative_pct
    split_ifs
    · exact ⟨0, by norm_num⟩
    · exact roundTo_isDp 4 _
  · rw [List.forall_iff_forall_mem]
    exact anxiety_trend_isDp3 sessions
  · rw [List.forall_iff_forall_mem]
    intro p hp
    unfold improvement_trend at hp
    rw [List.mem_map] at hp
    obtain ⟨d, -, rfl⟩ := hp
    exact roundTo_isDp 3 _
  · intro w
    rw [List.forall_iff_forall_mem]
    intro p hp
    unfold moving_average_anxiety at hp
    split_ifs at hp
    · exact anxiety_trend_isDp3 sessions p hp
    · rw [List.mem_map] at hp
      obtain ⟨q, -, rfl⟩ := hp
      exact roundTo_isDp 3 _
  · unfold statistical_summary
    split_ifs
    · exact trivial
    · exact ⟨roundTo_isDp 4 _, ⟨rheIntR _, rfl⟩, roundTo_isDp 4 _,
        roundTo_isDp 4 _, roundTo_isDp 4 _⟩

/-! ### Store lemmas -/

/-- `INSERT OR REPLACE` leaves exactly one row for the upserted key and the
count of every other key unchanged. -/
theorem upsert_session_idCount (db : List SessionRow) (sid uid emo : String) (conf : ℚ)
    (th : List String) (rf : Bool) (ms : ℚ) (mc : ℕ) (tr : List Char) (now tid : String) :
    idCount (upsert_session db sid uid emo conf th rf ms mc tr now) tid =
      if tid = sid then 1 else idCount db tid := by
  unfold idCount upsert_session
  rw [List.countP_append, List.countP_filter]
  by_cases h : tid = sid
  · subst h
    rw [if_pos rfl]
    have h0 : (db.countP fun a => a.session_id == tid && !(a.session_id == tid)) = 0 := by
      rw [List.countP_eq_zero]
      intro a _
      simp
    rw [h0]
    simp [mkRow]
  · rw [if_neg h]
    have hcong : (db.countP fun a => a.session_id == tid && !(a.session_id == sid)) =
        db.countP fun a => a.session_id == tid := by
      apply List.countP_congr
      intro a _
      by_cases ha : a.session_id = tid
      · have h1 : (a.session_id == tid) = true := beq_iff_eq.mpr ha
        have h2 : (a.session_id == sid) = false :=
          beq_eq_false_iff_ne.mpr (fun hh => h (ha ▸ hh))
        simp [h1, h2]
      · have h1 : (a.session_id == tid) = false := beq_eq_false_iff_ne.mpr ha
        simp [h1]
    have h2 : ((mkRow sid uid emo conf th rf ms mc tr now).session_id == tid) = false := by
      have : (sid == tid) = false := beq_eq_false_iff_ne.mpr (fun hh => h hh.symm)
      simp [mkRow, this]
    rw [hcong]
    simp [h2]

theorem applyUpserts_aux (calls : List UpsertCall) :
    ∀ db : List SessionRow, (∀ t, idCount db t ≤ 1) →
      ∀ t, idCount (calls.foldl doUpsert db) t ≤ 1 := by
  induction calls with
  | nil =>
    intro db h t
    exact h t
  | cons c cs ih =>
    intro db h t
    rw [List.foldl_cons]
    apply ih
    intro t'
    show idCount (doUpsert db c) t' ≤ 1
    unfold doUpsert
    rw [upsert_session_idCount]
    split_ifs
    · exact le_refl 1
    · exact h t'

/-- C6: after any sequence of `upsert_session` calls the store holds at most
one row per `session_id`, and upserting the same arguments twice leaves
exactly the one row built from the second call — all fields overwritten and
the timestamp that of the second call. -/
theorem upsert_idempotent :
    (∀ (calls : List UpsertCall) (sid : String),
      idCount (applyUpserts calls) sid ≤ 1) ∧
    (∀ (db : List SessionRow) (sid uid emo : String) (conf : ℚ) (th : List String)
        (rf : Bool) (ms : ℚ) (mc : ℕ) (tr : List Char) (t1 t2 : String),
      (upsert_session (upsert_session db sid uid emo conf th rf ms mc tr t1)
          sid uid emo conf th rf ms mc tr t2).filter (fun r => r.session_id == sid) =
        [mkRow sid uid emo conf th rf ms mc tr t2]) := by
  constructor
  · intro calls sid
    exact applyUpserts_aux calls [] (fun t => Nat.zero_le 1) sid
  · intro db sid uid emo conf th rf ms mc tr t1 t2
    unfold upsert_session
    simp [mkRow, List.filter_append, List.filter_filter]

/-- C9: the row stored by `upsert_session` holds `transcript[:2000]`: the
stored transcript never exceeds 2000 characters, and transcripts of at most
2000 characters are stored unchanged. -/
theorem transcript_capped (db : List SessionRow) (sid uid emo : String) (conf : ℚ)
    (th : List String) (rf : Bool) (ms : ℚ) (mc : ℕ) (tr : List Char) (now : String) :
    (upsert_session db sid uid emo conf th rf ms mc tr now).filter
        (fun r => r.session_id == sid) = [mkRow sid uid emo conf th rf ms mc tr now] ∧
    (mkRow sid uid emo conf th rf ms mc tr now).transcript = tr.take 2000 ∧
    (mkRow sid uid emo conf th rf ms mc tr now).transcript.length ≤ 2000 ∧
    (tr.length ≤ 2000 → (mkRow sid uid emo conf th rf ms mc tr now).transcript = tr) := by
  refine ⟨?_, rfl, ?_, ?_⟩
  · unfold upsert_session
    simp [mkRow, List.filter_append, List.filter_filter]
  · simp only [mkRow, List.length_take]
    omega
  · intro h
    simp only [mkRow]
    exact List.take_of_length_le h

/-- Witness for C9's bounded-transcript implication at a concrete call. -/
theorem transcript_capped_witness :
    ("hello".toList.length ≤ 2000) ∧
    (mkRow "s" "u" "neutral" (1/2) [] false 0 0 "hello".toList "t").transcript =
      "hello".toList :=
  ⟨by decide,
   (transcript_capped [] "s" "u" "neutral" (1/2) [] false 0 0 "hello".toList "t").2.2.2
     (by decide)⟩

/-- C10: the reported confidence never falls below the no-match baseline
0.30, and every recorded score is at least `(1/6) * 0.4`. -/
theorem confidence_floor (T : String) :
    3/10 ≤ (classify T).confidence_score ∧
    (classifyScores T).Forall (fun p => 1/6 * (4/10) ≤ p.2) := by
  constructor
  · rcases hsc : classifyScores T with _ | ⟨s, rest⟩ <;> simp only [classify, hsc]
    · norm_num
    · have hmem : pyMaxFold s rest ∈ classifyScores T := by
        rw [hsc]
        exact pyMaxFold_mem s rest
      have hlb := classifyScores_lb hmem
      have h1 : (3467 : ℚ)/10000 ≤ min ((pyMaxFold s rest).2 + 28/100) 1 :=
        le_min (by linarith) (by norm_num)
      have h2 : round4 ((3467 : ℚ)/10000) = (3467 : ℚ)/10000 := by
        rw [show (3467 : ℚ)/10000 = ((3467 : ℤ) : ℚ)/10 ^ 4 by norm_num]
        exact roundTo_int_div 4 3467
      calc (3 : ℚ)/10 ≤ 3467/10000 := by norm_num
        _ = round4 (3467/10000) := h2.symm
        _ ≤ round4 _ := roundTo_mono h1
  · rw [List.forall_iff_forall_mem]
    intro p hp
    calc (1 : ℚ)/6 * (4/10) ≤ 667/10000 := by norm_num
      _ ≤ p.2 := classifyScores_lb hp
